import Mathlib

/-!
Shallow embedding of the glpi_multi ticket-to-report pipeline
(glpi_app/main.py, glpi_connector.py, pdf_generator.py) and proofs of the
spec claims about it.  Python strings are modelled as `String` / `List Char`,
dictionaries as structures with optional fields, network effects as explicit
environment records, and exceptions as `Except`.
-/

/-! ## Output cleaner (`AutoPDF.post_process_llm_output`, main.py 125-141)

The function applies five `re.sub(..., "", text, flags=IGNORECASE)` passes and
then strips lines, drops empty lines (and bare `*` lines), and rejoins with
newlines.  The regular expressions involved are alternations of literals with
an optional trailing dot, a literal followed by `.*`, or two literals joined
by a greedy single-line `.*`; we embed exactly those shapes. -/

/-- ASCII lower-casing on code points, as `re.IGNORECASE` folds ASCII. -/
def lcNat (n : Nat) : Nat := if 65 ≤ n ∧ n ≤ 90 then n + 32 else n

/-- Case-insensitive character comparison. -/
def lcEqChar (p c : Char) : Bool := lcNat p.toNat = lcNat c.toNat

/-- Consume the literal `pat` case-insensitively from the front of `s`,
returning the rest on success. -/
def ciStrip : List Char → List Char → Option (List Char)
  | [], s => some s
  | _ :: _, [] => none
  | p :: ps, c :: cs => if lcEqChar p c then ciStrip ps cs else none

/-- Consume an optional leading `.` (the `\.?` at the end of a pattern). -/
def dropOptDot : List Char → List Char
  | '.' :: rest => rest
  | s => s

/-- The three shapes of pattern appearing in `post_process_llm_output`:
an alternation of literals each ending in `\.?`, a literal followed by a
greedy `.*`, and two literals joined by a greedy `.*` (dot not matching
newline, as none of the subs use `re.DOTALL`). -/
inductive RePat where
  | alts (lits : List (List Char))
  | litStar (a : List Char)
  | litMid (a b : List Char)

/-- Try each alternative literal (each with optional trailing dot) in order,
as Python's `|` does. -/
def tryAlts : List (List Char) → List Char → Option (List Char)
  | [], _ => none
  | l :: ls, s =>
    match ciStrip l s with
    | some r => some (dropOptDot r)
    | none => tryAlts ls s

/-- Number of characters before the first newline: the furthest a single-line
`.*` can reach. -/
def lineLen (s : List Char) : Nat := (s.takeWhile (fun c => c ≠ '\n')).length

/-- Greedy backtracking search for the literal `b` after a `.*`: try the
largest offset `k` first, as a greedy `.*` does. -/
def searchBack (b r : List Char) : Nat → Option (List Char)
  | 0 => ciStrip b r
  | k + 1 =>
    match ciStrip b (r.drop (k + 1)) with
    | some rest => some rest
    | none => searchBack b r k

/-- Match a pattern at the front of `s`, returning the rest after the match. -/
def matchPat : RePat → List Char → Option (List Char)
  | RePat.alts ls, s => tryAlts ls s
  | RePat.litStar a, s =>
    match ciStrip a s with
    | some r => some (r.drop (lineLen r))
    | none => none
  | RePat.litMid a b, s =>
    match ciStrip a s with
    | some r => searchBack b r (lineLen r)
    | none => none

/-- One `re.sub(pat, "", s)` pass: scan left to right, deleting each
non-overlapping match and continuing after it.  Every pattern starts with a
nonempty literal, so a successful match consumes at least one character and
`s.length` is enough fuel. -/
def substGo (p : RePat) : Nat → List Char → List Char
  | 0, s => s
  | _ + 1, [] => []
  | fuel + 1, c :: cs =>
    match matchPat p (c :: cs) with
    | some r => substGo p fuel r
    | none => c :: substGo p fuel cs

/-- `re.sub(pat, "", s)`. -/
def subst (p : RePat) (s : List Char) : List Char := substGo p s.length s

/-- main.py line 127. -/
def pat1 : RePat :=
  RePat.alts
    ["Please let me know if you need any further assistance".data,
     "I\x27m here to help".data,
     "Best regards, [Your Name] IT Support Assistant".data]

/-- main.py line 128. -/
def pat2 : RePat :=
  RePat.litStar "If you have any further questions or need any additional assistance".data

/-- main.py line 129. -/
def pat3 : RePat :=
  RePat.litMid "However, it is assumed that a ticket ID exists in the actual GLPI ticket.".data
    "I don\x27t know.".data

/-- main.py line 130. -/
def pat4 : RePat :=
  RePat.litMid "No ticket ID is provided in the given content".data
    "Ticket ID:  (Unknown)".data

/-- main.py line 131. -/
def pat5 : RePat :=
  RePat.litMid "Note: The provided content does not include a ticket ID.".data
    "I don\x27t know".data

/-- The five boilerplate-removal passes, in program order. -/
def substAll (s : List Char) : List Char :=
  subst pat5 (subst pat4 (subst pat3 (subst pat2 (subst pat1 s))))

/-- The characters Python's `str.strip()` removes (ASCII whitespace). -/
def isPySpace (c : Char) : Bool :=
  c = ' ' || c = '\t' || c = '\n' || c = '\r' || c = '\x0b' || c = '\x0c'

/-- Python `line.strip()`. -/
def pyStrip (l : List Char) : List Char :=
  ((l.dropWhile isPySpace).reverse.dropWhile isPySpace).reverse

/-- Python `text.split("\n")`. -/
def splitNl : List Char → List (List Char)
  | [] => [[]]
  | c :: cs =>
    if c = '\n' then [] :: splitNl cs
    else
      match splitNl cs with
      | [] => [[c]]
      | l :: ls => (c :: l) :: ls

/-- Python `"\n".join(lines)`. -/
def joinNl : List (List Char) → List Char
  | [] => []
  | [l] => l
  | l :: m :: ls => l ++ '\n' :: joinNl (m :: ls)

/-- The line filter of main.py 134-139: keep `*`-lines of length > 1 and
other nonempty lines. -/
def keepLine : List Char → Bool
  | [] => false
  | c :: rest => if c = '*' then !rest.isEmpty else true

/-- Strip a line and keep it if the filter accepts it. -/
def processLine (l : List Char) : Option (List Char) :=
  let t := pyStrip l
  if keepLine t then some t else none

/-- main.py lines 132-141: split, strip, filter, rejoin. -/
def lineClean (s : List Char) : List Char :=
  joinNl ((splitNl s).filterMap processLine)

/-- `AutoPDF.post_process_llm_output` (main.py 125-141). -/
def post_process_llm_output (s : String) : String :=
  ⟨lineClean (substAll s.data)⟩

/-! ## Python value helpers -/

/-- Python truthiness of a string: nonempty. -/
def pyTruthyStr (s : String) : Bool := !s.isEmpty

/-- Python truthiness of an optional string (`None` and `""` are falsy). -/
def pyTruthyOptStr : Option String → Bool
  | none => false
  | some s => !s.isEmpty

/-- JSON scalar values appearing in webhook records and GLPI responses. -/
inductive JVal where
  | null
  | str (s : String)
  | num (n : Int)
deriving DecidableEq

/-- Python `==` between a possibly missing dict value and a given value
(a missing key yields `None`, which equals no string). -/
def jvalEq : Option JVal → JVal → Bool
  | none, _ => false
  | some v, w => v = w

/-- Accumulate a decimal value over digit characters; `none` on a
non-digit. -/
def digitsValGo : List Char → Nat → Option Nat
  | [], acc => some acc
  | c :: cs, acc =>
    if '0' ≤ c ∧ c ≤ '9' then digitsValGo cs (acc * 10 + (c.toNat - 48)) else none

/-- A nonempty all-digit sequence, as `int()` requires after the sign. -/
def digitsNE : List Char → Option Nat
  | [] => none
  | ds => digitsValGo ds 0

/-- Python `int(s)` on a string: strip whitespace, optional sign, digits;
`None` result models the raised `ValueError`. -/
def parseIntStr (s : String) : Option Int :=
  match pyStrip s.data with
  | '+' :: ds => Option.map Int.ofNat (digitsNE ds)
  | '-' :: ds => Option.map (fun n => -(Int.ofNat n)) (digitsNE ds)
  | ds => Option.map Int.ofNat (digitsNE ds)

/-- Python `int(x)` on a dict value: missing key or `None` raises
`TypeError`, a non-numeric string raises `ValueError`; both are `none`. -/
def pyInt : Option JVal → Option Int
  | none => none
  | some JVal.null => none
  | some (JVal.num n) => some n
  | some (JVal.str s) => parseIntStr s

/-- Python `f"..."` interpolation of a dict value. -/
def pyStrJ : Option JVal → String
  | none => "None"
  | some JVal.null => "None"
  | some (JVal.str s) => s
  | some (JVal.num n) => toString n

/-- A generic raised Python exception. -/
inductive PyExc where
  | exc (msg : String)
deriving DecidableEq

/-- A `requests.exceptions.RequestException` (transport error or the
`raise_for_status` of a non-2xx response). -/
inductive HttpErr where
  | reqExc (msg : String)
deriving DecidableEq

/-- A `botocore.exceptions.ClientError` from the S3 upload. -/
inductive ClientErr where
  | clientError (msg : String)
deriving DecidableEq

/-- Tenacity `@retry(stop=stop_after_attempt(n), wait=wait_exponential(...))`
around a deterministic call: the wrapper re-invokes the function only when it
raises, so a call that returns normally is attempted exactly once, and a call
that raises is attempted `n` times (identically, since it is deterministic)
before the failure propagates.  The second component counts attempts. -/
def retry_call {ε α : Type} (maxAttempts : Nat) (body : Except ε α) :
    Except ε α × Nat :=
  match body with
  | Except.ok a => (Except.ok a, 1)
  | Except.error e => (Except.error e, maxAttempts)

/-! ## Ticket client (`GLPIConnector`, glpi_connector.py)

The connector state is its `session_token` (an optional string).  The HTTP
layer is an environment of responses; `Except HttpErr` is the outcome of a
single request.  Each method catches `RequestException` internally, so its
body is `Except.ok` of the Python return value on every HTTP-failure path;
an `Except.error` would be an exception escaping to the `@retry` wrapper. -/

/-- One entry of the `Ticket/{id}/Item_Ticket` response. -/
structure LinkedItem where
  itemtype : Option JVal
  items_id : Option JVal
deriving DecidableEq

/-- The `Document/{id}?expand_dropdowns=true` response (only the field the
code reads). -/
structure DocJson where
  filename : Option String
deriving DecidableEq

/-- The dict appended by `get_ticket_documents` (the Python dict also stores
the function object `os.path.join` under `"filepath"`, which carries no
data and is not modelled). -/
structure DocRec where
  id : Option JVal
  filename : String
  download_url : String
deriving DecidableEq

/-- The `Ticket/{id}` response (only the field the pipeline reads). -/
structure TicketJson where
  content : Option String
deriving DecidableEq

/-- The ticket dict returned by `get_ticket`, after
`ticket['documents'] = documents`. -/
structure ConnTicket where
  content : Option String
  documents : List DocRec
deriving DecidableEq

/-- The remote GLPI API as seen by one pipeline run. -/
structure GlpiEnv where
  baseUrl : String
  initHttp : Except HttpErr (Option String)
  ticketHttp : Except HttpErr TicketJson
  linkedHttp : Except HttpErr (List LinkedItem)
  docHttp : Option JVal → Except HttpErr DocJson

/-- Body of `GLPIConnector.init_session` (glpi_connector.py 34-58): on a
request failure return `False`; otherwise store the `session_token` field
(possibly `None`) and report whether it is truthy. -/
def init_session_body (env : GlpiEnv) (st : Option String) :
    Except PyExc (Bool × Option String) :=
  match env.initHttp with
  | Except.error _ => Except.ok (false, st)
  | Except.ok tok => Except.ok (pyTruthyOptStr tok, tok)

/-- `init_session` with its `@retry` wrapper. -/
def init_session (env : GlpiEnv) (st : Option String) :
    Except PyExc (Bool × Option String) × Nat :=
  retry_call 3 (init_session_body env st)

/-- `GLPIConnector.kill_session` (glpi_connector.py 61-79): immediate `True`
with no request when no session token is held, otherwise one request whose
failure is reported as `False`.  The second component counts requests. -/
def kill_session (st : Option String) (http : Except HttpErr Unit) : Bool × Nat :=
  if pyTruthyOptStr st then
    match http with
    | Except.ok _ => (true, 1)
    | Except.error _ => (false, 1)
  else (true, 0)

/-- The loop of glpi_connector.py 129-148: resolve each linked item of
itemtype `Document`; a failing document request raises out of the loop;
items whose metadata filename is not truthy are skipped. -/
def doc_loop (env : GlpiEnv) : List LinkedItem → Except HttpErr (List DocRec)
  | [] => Except.ok []
  | it :: its =>
    if jvalEq it.itemtype (JVal.str "Document") then
      match env.docHttp it.items_id with
      | Except.error e => Except.error e
      | Except.ok dj =>
        match doc_loop env its with
        | Except.error e => Except.error e
        | Except.ok rest =>
          Except.ok
            (if pyTruthyOptStr dj.filename then
              { id := it.items_id, filename := dj.filename.getD "",
                download_url := env.baseUrl ++ "/Document/" ++ pyStrJ it.items_id } :: rest
            else rest)
    else doc_loop env its

/-- The `try` of `get_ticket_documents` after the session guard
(glpi_connector.py 120-154): the linked-items request and its per-document
resolution; any `RequestException` is caught and yields `[]`. -/
def get_ticket_documents_rest (env : GlpiEnv) (st1 : Option String) :
    Except PyExc (List DocRec × Option String) :=
  match env.linkedHttp with
  | Except.error _ => Except.ok ([], st1)
  | Except.ok items =>
    match doc_loop env items with
    | Except.error _ => Except.ok ([], st1)
    | Except.ok docs => Except.ok (docs, st1)

/-- Body of `GLPIConnector.get_ticket_documents` (glpi_connector.py
114-154): lazy session init (early `[]` return when it fails), then the
request part. -/
def get_ticket_documents_body (env : GlpiEnv) (st : Option String) :
    Except PyExc (List DocRec × Option String) :=
  if pyTruthyOptStr st then get_ticket_documents_rest env st
  else
    match (init_session env st).1 with
    | Except.error e => Except.error e
    | Except.ok (ok, st1) =>
      if ok then get_ticket_documents_rest env st1 else Except.ok ([], st1)

/-- `get_ticket_documents` with its `@retry` wrapper. -/
def get_ticket_documents (env : GlpiEnv) (st : Option String) :
    Except PyExc (List DocRec × Option String) × Nat :=
  retry_call 3 (get_ticket_documents_body env st)

/-- The `try` of `get_ticket` after the session guard (glpi_connector.py
96-111): the ticket request (failure caught, `None` returned), then the
wrapped `get_ticket_documents`, and `ticket['documents'] = documents`. -/
def get_ticket_rest (env : GlpiEnv) (st1 : Option String) :
    Except PyExc (Option ConnTicket × Option String) :=
  match env.ticketHttp with
  | Except.error _ => Except.ok (none, st1)
  | Except.ok tj =>
    match (get_ticket_documents env st1).1 with
    | Except.error e => Except.error e
    | Except.ok (docs, st2) =>
      Except.ok (some { content := tj.content, documents := docs }, st2)

/-- Body of `GLPIConnector.get_ticket` (glpi_connector.py 90-111): lazy
session init (early `None` return when it fails), then the request part. -/
def get_ticket_body (env : GlpiEnv) (st : Option String) :
    Except PyExc (Option ConnTicket × Option String) :=
  if pyTruthyOptStr st then get_ticket_rest env st
  else
    match (init_session env st).1 with
    | Except.error e => Except.error e
    | Except.ok (ok, st1) => if ok then get_ticket_rest env st1 else Except.ok (none, st1)

/-- `get_ticket` with its `@retry` wrapper. -/
def get_ticket (env : GlpiEnv) (st : Option String) :
    Except PyExc (Option ConnTicket × Option String) × Nat :=
  retry_call 3 (get_ticket_body env st)

/-! ## Pipeline orchestrator (`AutoPDF.process_ticket`, main.py 54-122) -/

/-- A document as `process_ticket` reads it (`doc.get('encoded_content')`). -/
structure PDoc where
  encoded_content : Option String

/-- A ticket as `process_ticket` reads it. -/
structure PTicket where
  content : Option String
  documents : List PDoc

/-- The collaborators of one `process_ticket` run: the ticket client call,
the RAG completion, the vision model (`process_image` catches every
exception and returns `None`, so it is total), the merge completion, and
report generation (whose constructor may raise). -/
structure PEnv where
  getTicket : Except PyExc (Option PTicket)
  rag : Except PyExc String
  vision : String → Option String
  complete : String → Except PyExc String
  report : Except PyExc Unit

/-- Observable events of a pipeline run. -/
inductive Ev where
  | killAttempt
  | completeCall (prompt : String)
  | reportCall (title result : String)

/-- Number of `kill_session` attempts in a trace. -/
def countKill : List Ev → Nat
  | [] => 0
  | Ev.killAttempt :: es => countKill es + 1
  | Ev.completeCall _ :: es => countKill es
  | Ev.reportCall _ _ :: es => countKill es

/-- The merge prompt of main.py 88-96 (an f-string containing both
summaries). -/
def combined_prompt (t i : String) : String :=
  "\nCombine the following text summary and image summary into a single, coherent summary:\n\n**Text Summary:**\n"
    ++ t ++ "\n\n**Image Summary:**\n" ++ i ++ "\n                "

/-- The Combining stage (main.py 87-104): returns the final result together
with the list of merge prompts sent to `complete`. -/
def combine_summaries (complete : String → Except PyExc String) (t i : String) :
    Except PyExc String × List String :=
  if pyTruthyStr t && pyTruthyStr i then
    (complete (combined_prompt t i), [combined_prompt t i])
  else if pyTruthyStr t then (Except.ok t, [])
  else if pyTruthyStr i then (Except.ok i, [])
  else (Except.ok "No information available.", [])

/-- The image loop of main.py 75-84: documents with truthy encoded content
are sent to the vision model; truthy results are accumulated with a
trailing newline. -/
def image_loop (vision : String → Option String) : List PDoc → String → String
  | [], acc => acc
  | d :: ds, acc =>
    if pyTruthyOptStr d.encoded_content then
      let r := vision (d.encoded_content.getD "")
      if pyTruthyOptStr r then image_loop vision ds (acc ++ r.getD "" ++ "\n")
      else image_loop vision ds acc
    else image_loop vision ds acc

/-- The `try` block of `process_ticket` (main.py 56-115): the events it
emits and the exception it raises, if any. -/
def try_body (env : PEnv) (tid : Int) : List Ev × Option PyExc :=
  match env.getTicket with
  | Except.error e => ([], some e)
  | Except.ok none => ([], none)
  | Except.ok (some t) =>
    match (if pyTruthyOptStr t.content then env.rag else Except.ok "") with
    | Except.error e => ([], some e)
    | Except.ok textSummary =>
      let imageSummary :=
        if t.documents.isEmpty then "" else image_loop env.vision t.documents ""
      let res := combine_summaries env.complete textSummary imageSummary
      let callEvs := res.2.map Ev.completeCall
      match res.1 with
      | Except.error e => (callEvs, some e)
      | Except.ok finalResult =>
        match env.report with
        | Except.error e => (callEvs, some e)
        | Except.ok _ =>
          (callEvs ++ [Ev.reportCall ("Ticket Analysis - #" ++ toString tid)
            (post_process_llm_output finalResult)], none)

/-- `AutoPDF.process_ticket`: the `try` block, whose exception is caught and
logged, followed by the guaranteed `finally` call of `kill_session`. -/
def process_ticket (env : PEnv) (tid : Int) : List Ev :=
  (try_body env tid).1 ++ [Ev.killAttempt]

/-! ## Webhook endpoint (`glpi_webhook`, main.py 148-166) -/

/-- One record of the webhook JSON array. -/
structure WRec where
  event : Option JVal
  itemtype : Option JVal
  items_id : Option JVal
deriving DecidableEq

/-- The filter of main.py 156: `event in ["add", "update"] and
itemtype == "Ticket"`. -/
def rec_matches (r : WRec) : Bool :=
  (jvalEq r.event (JVal.str "add") || jvalEq r.event (JVal.str "update"))
    && jvalEq r.itemtype (JVal.str "Ticket")

/-- The handler's response payload: a `message` key or an `error` key. -/
inductive WebhookResp where
  | message (s : String)
  | error (s : String)
deriving DecidableEq

/-- The loop of main.py 155-161: the first matching record schedules one
background task and returns; a failing `int()` raises out of the loop into
the handler's `except`, which returns an error payload. -/
def webhook_loop : List WRec → WebhookResp × List Int
  | [] => (WebhookResp.message "Webhook received, but no relevant event found.", [])
  | r :: rs =>
    if rec_matches r then
      match pyInt r.items_id with
      | some n =>
        (WebhookResp.message ("Ticket processing initiated for ID: " ++ toString n), [n])
      | none => (WebhookResp.error "invalid literal for int()", [])
    else webhook_loop rs

/-- `glpi_webhook` on a parsed JSON array: the response and the list of
scheduled pipeline runs. -/
def glpi_webhook (data : List WRec) : WebhookResp × List Int :=
  webhook_loop data

/-! ## Report builder (`PDFGenerator`, pdf_generator.py) -/

/-- A ReportLab flowable as assembled by `generate_report`. -/
inductive Element where
  | para (text style : String)
  | spacer
  | bullets (items : List String)
deriving DecidableEq

/-- One entry of `source_info`. -/
structure SourceInfo where
  source_id : Option Int

/-- Consume the exact separator from the front of `s`. -/
def stripSep : List Char → List Char → Option (List Char)
  | [], s => some s
  | _ :: _, [] => none
  | p :: ps, c :: cs => if p = c then stripSep ps cs else none

/-- Python `s.split(sep)` for a nonempty separator: scan left to right,
cutting at each non-overlapping occurrence.  Fuel `s.length` suffices since
every step consumes at least one character. -/
def splitSepGo (sep : List Char) : Nat → List Char → List Char → List (List Char)
  | _, acc, [] => [acc.reverse]
  | 0, acc, s => [acc.reverse ++ s]
  | fuel + 1, acc, c :: cs =>
    match stripSep sep (c :: cs) with
    | some r => acc.reverse :: splitSepGo sep fuel [] r
    | none => splitSepGo sep fuel (c :: acc) cs

/-- Python `s.split(sep)`. -/
def splitSep (sep s : List Char) : List (List Char) :=
  splitSepGo sep s.length [] s

/-- Python `s.split(sep)` on `String`. -/
def pySplitStr (sep s : String) : List String :=
  (splitSep sep.data s.data).map (fun l => ⟨l⟩)

/-- Python `s.strip()` on `String`. -/
def pyStripStr (s : String) : String := ⟨pyStrip s.data⟩

/-- The loop of `_add_structured_result` (pdf_generator.py 147-161):
`for i in range(1, len(sections), 2)`, where `sections[i]` is a heading and
`sections[i+1]` (when present) its body; `none` would be an out-of-range
access, i.e. a crash.  The loop advances `i` by 2 while `i < len(sections)`,
so `sections.length` is enough fuel. -/
def structLoopGo (sections : List String) : Nat → Nat → Option (List Element)
  | 0, i => if i < sections.length then none else some []
  | fuel + 1, i =>
    if i < sections.length then
      match sections.get? i with
      | none => none
      | some rawTitle =>
        let t := pyStripStr rawTitle
        let content :=
          match sections.get? (i + 1) with
          | some c => pyStripStr c
          | none => ""
        let body :=
          if t = "Troubleshooting Steps:" ∨ t = "Solution:" then
            Element.bullets (((pySplitStr "*" content).map pyStripStr).filter
              (fun x => !x.isEmpty))
          else Element.para content "Normal"
        match structLoopGo sections fuel (i + 2) with
        | none => none
        | some rest => some (Element.para t "Heading2" :: body :: rest)
    else some []

/-- The loop with its fuel instantiated. -/
def structLoop (sections : List String) (i : Nat) : Option (List Element) :=
  structLoopGo sections sections.length i

/-- `PDFGenerator._add_structured_result`: split on `**` and walk the odd
indices. -/
def add_structured_result (result : String) : Option (List Element) :=
  structLoop (pySplitStr "**" result) 1

/-- The element list assembled by `generate_report` (pdf_generator.py
83-101): title, `Result:` heading, structured result, and the
source-information block for the first source only (the loop `break`s). -/
def report_elements (title result : String) (sources : List SourceInfo) :
    Option (List Element) :=
  match add_structured_result result with
  | none => none
  | some structured =>
    some ([Element.para title "Heading1", Element.spacer,
      Element.para "Result:" "Heading2", Element.spacer]
      ++ structured ++ [Element.spacer,
        Element.para "Source Information:" "Heading2", Element.spacer]
      ++ (match sources with
          | [] => []
          | s :: _ =>
            [Element.para ("Source ID: " ++
                (match s.source_id with
                 | some n => toString n
                 | none => "N/A")) "Normal",
             Element.para "Source Type: glpi_ticket" "Normal"]))

/-- The build and upload collaborators of one `generate_report` call. -/
structure REnv where
  build : Except PyExc Unit
  s3 : Except ClientErr Unit

/-- Body of `PDFGenerator.upload_to_s3` (pdf_generator.py 128-142): a
`ClientError` is logged and re-raised to the caller. -/
def upload_to_s3_body (env : REnv) : Except ClientErr Unit :=
  match env.s3 with
  | Except.ok _ => Except.ok ()
  | Except.error e => Except.error e

/-- `upload_to_s3` with its declared `@retry` wrapper (note: pdf_generator.py
never imports `retry`, so as written the module raises `NameError` on
import; the wrapper here models the declared policy). -/
def upload_to_s3 (env : REnv) : Except ClientErr Unit × Nat :=
  retry_call 3 (upload_to_s3_body env)

/-- `PDFGenerator.generate_report` (pdf_generator.py 75-125): assemble the
elements (outside any `try`), then build and upload inside a `try` whose
`except ClientError` and `except Exception` clauses both swallow the
failure; the `finally` removes the local file.  Returns what propagates to
the caller and the number of upload attempts made. -/
def generate_report (env : REnv) (title result : String)
    (sources : List SourceInfo) : Except PyExc Unit × Nat :=
  match report_elements title result sources with
  | none => (Except.error (PyExc.exc "IndexError"), 0)
  | some _ =>
    match env.build with
    | Except.error _ => (Except.ok (), 0)
    | Except.ok _ => (Except.ok (), (upload_to_s3 env).2)

/-! ## Concrete inputs used by witnesses and counterexamples -/

/-- One removable boilerplate phrase. -/
def S0 : String := "Please let me know if you need any further assistance."

/-- Deleting the inner occurrence of the phrase glues a new occurrence
together, so one cleaning pass leaves removable text behind. -/
def c2x : String := "Ple" ++ S0 ++ "ase let me know if you need any further assistance."

/-- A text with a duplicated `Key Information:` section marker. -/
def c5x : String := "Key Information:\nA\nKey Information:\nB"

/-- A GLPI API where every request raises `RequestException`. -/
def envAllFail : GlpiEnv :=
  { baseUrl := "http://glpi/apirest.php"
    initHttp := Except.error (HttpErr.reqExc "connection refused")
    ticketHttp := Except.error (HttpErr.reqExc "connection refused")
    linkedHttp := Except.error (HttpErr.reqExc "connection refused")
    docHttp := fun _ => Except.error (HttpErr.reqExc "connection refused") }

/-- A report environment whose S3 upload always fails. -/
def envUpFail : REnv :=
  { build := Except.ok (), s3 := Except.error (ClientErr.clientError "AccessDenied") }

/-- A matching webhook record for ticket 42 (string id, as GLPI sends). -/
def wrecAdd42 : WRec :=
  { event := some (JVal.str "add"), itemtype := some (JVal.str "Ticket"),
    items_id := some (JVal.str "42") }

/-- A second matching record in the same batch, which must be ignored. -/
def wrecUpd7 : WRec :=
  { event := some (JVal.str "update"), itemtype := some (JVal.str "Ticket"),
    items_id := some (JVal.str "7") }

/-- A non-matching record. -/
def wrecDel : WRec :=
  { event := some (JVal.str "delete"), itemtype := some (JVal.str "Ticket"),
    items_id := some (JVal.str "9") }

/-- A matching record whose `items_id` key is absent. -/
def wrecNoId : WRec :=
  { event := some (JVal.str "add"), itemtype := some (JVal.str "Ticket"),
    items_id := none }

/-- A pipeline environment for a successful run with one text summary. -/
def envPipe : PEnv :=
  { getTicket := Except.ok (some { content := some "hello", documents := [] })
    rag := Except.ok "S"
    vision := fun _ => none
    complete := fun _ => Except.ok "M"
    report := Except.ok () }

/-! ### Facts about the line-cleanup stage -/

theorem pyStrip_eq (l : List Char) :
    pyStrip l = List.rdropWhile isPySpace (l.dropWhile isPySpace) := rfl

theorem dropWhile_fix_of_prefix {p : Char → Bool} {q m : List Char}
    (hpref : q <+: m) (hm : m.dropWhile p = m) : q.dropWhile p = q := by
  cases q with
  | nil => rfl
  | cons c q' =>
    obtain ⟨t, ht⟩ := hpref
    subst ht
    by_cases hc : p c
    · exfalso
      rw [List.cons_append] at hm
      simp only [List.dropWhile, hc] at hm
      have := (List.dropWhile_suffix (l := q' ++ t) p).length_le
      rw [hm] at this
      simp at this
    · simp [List.dropWhile, hc]

theorem pyStrip_idem (l : List Char) : pyStrip (pyStrip l) = pyStrip l := by
  rw [pyStrip_eq, pyStrip_eq]
  have h1 : (List.rdropWhile isPySpace (l.dropWhile isPySpace)).dropWhile isPySpace
      = List.rdropWhile isPySpace (l.dropWhile isPySpace) :=
    dropWhile_fix_of_prefix (List.rdropWhile_prefix _ _)
      (List.dropWhile_idempotent _ _)
  rw [h1, List.rdropWhile_idempotent]

theorem mem_of_mem_pyStrip {c : Char} {l : List Char} (h : c ∈ pyStrip l) : c ∈ l := by
  rw [pyStrip_eq] at h
  exact (List.dropWhile_suffix isPySpace).subset
    ((List.rdropWhile_prefix isPySpace _).subset h)

theorem splitNl_ne_nil (s : List Char) : splitNl s ≠ [] := by
  cases s with
  | nil => simp [splitNl]
  | cons c cs =>
    by_cases hc : c = '\n'
    · simp [splitNl, hc]
    · cases h : splitNl cs <;> simp [splitNl, hc, h]

theorem no_nl_of_mem_splitNl {s l : List Char} (h : l ∈ splitNl s) : '\n' ∉ l := by
  induction s generalizing l with
  | nil =>
    simp only [splitNl, List.mem_singleton] at h
    simp [h]
  | cons c cs ih =>
    by_cases hc : c = '\n'
    · rw [splitNl, if_pos hc] at h
      rcases List.mem_cons.mp h with h | h
      · simp [h]
      · exact ih h
    · rw [splitNl, if_neg hc] at h
      cases hsp : splitNl cs with
      | nil => exact absurd hsp (splitNl_ne_nil cs)
      | cons m ms =>
        rw [hsp] at h
        rcases List.mem_cons.mp h with h | h
        · subst h
          intro hmem
          rcases List.mem_cons.mp hmem with h | h
          · exact hc h.symm
          · exact ih (hsp ▸ List.mem_cons_self m ms) h
        · exact ih (hsp ▸ List.mem_cons_of_mem m h)

theorem splitNl_no_nl {l : List Char} (h : '\n' ∉ l) : splitNl l = [l] := by
  induction l with
  | nil => rfl
  | cons c cs ih =>
    have hc : c ≠ '\n' := fun hcc => h (hcc ▸ List.mem_cons_self c cs)
    have hcs : '\n' ∉ cs := fun hm => h (List.mem_cons_of_mem c hm)
    rw [splitNl, if_neg hc, ih hcs]

theorem splitNl_append_nl {l : List Char} (rest : List Char) (h : '\n' ∉ l) :
    splitNl (l ++ '\n' :: rest) = l :: splitNl rest := by
  induction l with
  | nil => simp [splitNl]
  | cons c cs ih =>
    have hc : c ≠ '\n' := fun hcc => h (hcc ▸ List.mem_cons_self c cs)
    have hcs : '\n' ∉ cs := fun hm => h (List.mem_cons_of_mem c hm)
    rw [List.cons_append, splitNl, if_neg hc, ih hcs]

theorem splitNl_joinNl {ls : List (List Char)} (hnl : ∀ l ∈ ls, '\n' ∉ l)
    (hne : ls ≠ []) : splitNl (joinNl ls) = ls := by
  induction ls with
  | nil => exact absurd rfl hne
  | cons l ls ih =>
    cases ls with
    | nil => exact splitNl_no_nl (hnl l (List.mem_cons_self l []))
    | cons m ms =>
      rw [joinNl, splitNl_append_nl _ (hnl l (List.mem_cons_self l _))]
      rw [ih (fun x hx => hnl x (List.mem_cons_of_mem l hx)) (by simp)]

theorem filterMap_fix {ks : List (List Char)}
    (h : ∀ t ∈ ks, processLine t = some t) : ks.filterMap processLine = ks := by
  induction ks with
  | nil => rfl
  | cons t ts ih =>
    rw [List.filterMap_cons, h t (List.mem_cons_self t ts),
      ih (fun x hx => h x (List.mem_cons_of_mem t hx))]

theorem processLine_eq_some {l t : List Char} (h : processLine l = some t) :
    t = pyStrip l ∧ keepLine t = true := by
  unfold processLine at h
  by_cases hk : keepLine (pyStrip l)
  · rw [if_pos hk] at h
    exact ⟨(Option.some.injEq _ _ ▸ h).symm, (Option.some.injEq _ _ ▸ h) ▸ hk⟩
  · rw [if_neg hk] at h
    exact absurd h (by simp)

theorem kept_line_fixed {s t : List Char}
    (h : t ∈ (splitNl s).filterMap processLine) :
    processLine t = some t ∧ '\n' ∉ t := by
  rcases List.mem_filterMap.mp h with ⟨l, hl, hpl⟩
  obtain ⟨ht, hk⟩ := processLine_eq_some hpl
  subst ht
  refine ⟨?_, fun hm => no_nl_of_mem_splitNl hl (mem_of_mem_pyStrip hm)⟩
  unfold processLine
  rw [pyStrip_idem, if_pos hk]

theorem lineClean_idem (s : List Char) : lineClean (lineClean s) = lineClean s := by
  unfold lineClean
  cases hks : (splitNl s).filterMap processLine with
  | nil => rfl
  | cons k ks =>
    have hmem : ∀ t ∈ k :: ks, processLine t = some t ∧ '\n' ∉ t :=
      fun t ht => kept_line_fixed (hks ▸ ht)
    rw [splitNl_joinNl (fun l hl => (hmem l hl).2) (by simp)]
    rw [filterMap_fix (fun t ht => (hmem t ht).1)]

theorem pyTruthyStr_iff (s : String) : pyTruthyStr s = true ↔ s ≠ "" := by
  unfold pyTruthyStr
  rw [Bool.not_eq_true']
  constructor
  · intro hb hs
    rw [hs] at hb
    exact absurd hb (by decide)
  · intro hs
    by_contra hb
    exact hs ((String.isEmpty_iff s).mp (by simpa using hb))

/-! ### Claim theorems: output cleaner -/

set_option maxRecDepth 10000 in
/-- C2, counterexample: the cleaner is not idempotent.  On
`c2x = "Ple" ++ S0 ++ (S0 minus its first three characters)`, the first pass
deletes the inner occurrence of the boilerplate phrase `S0`, which glues the
surrounding text into a fresh occurrence of `S0`; a second pass deletes that
too, so `clean (clean c2x) ≠ clean c2x`. -/
theorem c2_clean_not_idempotent :
    post_process_llm_output (post_process_llm_output c2x) ≠ post_process_llm_output c2x := by
  decide

/-- C2, amended: the cleaner is idempotent on every input whose cleaned form
is left unchanged by the boilerplate-removal passes (removal can otherwise
create new pattern occurrences); in particular the line-cleanup stage by
itself is always idempotent. -/
theorem c2_clean_idempotent_when_sub_fixed (x : String)
    (h : substAll (post_process_llm_output x).data = (post_process_llm_output x).data) :
    post_process_llm_output (post_process_llm_output x) = post_process_llm_output x := by
  have h' : substAll (lineClean (substAll x.data)) = lineClean (substAll x.data) := h
  show String.mk (lineClean (substAll (lineClean (substAll x.data))))
    = String.mk (lineClean (substAll x.data))
  rw [h', lineClean_idem]

set_option maxRecDepth 10000 in
/-- C2, witness for the amended theorem at the concrete input `"A\nB"`. -/
theorem c2_clean_idempotent_witness :
    post_process_llm_output (post_process_llm_output "A\nB") = post_process_llm_output "A\nB" :=
  c2_clean_idempotent_when_sub_fixed "A\nB" (by decide)

set_option maxRecDepth 10000 in
/-- C5, counterexample: the cleaner performs no duplicate-section collapse.
On `c5x`, whose `Key Information:` heading occurs twice, the text from the
second occurrence onward (`"Key Information:\nB"`) is still an infix of the
cleaned output, contradicting the claim that it is absent. -/
theorem c5_second_section_survives :
    ("Key Information:\nB").data <:+: (post_process_llm_output c5x).data := by
  decide

set_option maxRecDepth 10000 in
/-- C5, amended: the cleaner keeps duplicated section markers: no pass of
`post_process_llm_output` looks for repeated headings, so an input made of
stripped nonempty boilerplate-free lines — even with a duplicated
`Key Information:` marker — is returned verbatim. -/
theorem c5_no_section_collapse : post_process_llm_output c5x = c5x := by
  decide

/-! ### Claim theorems: combining stage and session finalization -/

/-- C1: in the Combining stage, two non-empty summaries yield the return
value of exactly one `complete` call whose prompt contains both summaries;
exactly one non-empty summary is used verbatim with no merge call; two
empty summaries yield the fixed fallback string. -/
theorem c1_combining_stage (complete : String → Except PyExc String) (t i : String) :
    (t ≠ "" → i ≠ "" →
      combine_summaries complete t i
          = (complete (combined_prompt t i), [combined_prompt t i])
        ∧ t.data <:+: (combined_prompt t i).data
        ∧ i.data <:+: (combined_prompt t i).data)
    ∧ (t ≠ "" → i = "" → combine_summaries complete t i = (Except.ok t, []))
    ∧ (t = "" → i ≠ "" → combine_summaries complete t i = (Except.ok i, []))
    ∧ (t = "" → i = "" →
      combine_summaries complete t i = (Except.ok "No information available.", [])) := by
  refine ⟨fun ht hi => ?_, fun ht hi => ?_, fun ht hi => ?_, fun ht hi => ?_⟩
  · have ht' := (pyTruthyStr_iff t).mpr ht
    have hi' := (pyTruthyStr_iff i).mpr hi
    refine ⟨by simp [combine_summaries, ht', hi'], ?_, ?_⟩
    · have h2 : (combined_prompt t i).data
          = "\nCombine the following text summary and image summary into a single, coherent summary:\n\n**Text Summary:**\n".data
            ++ t.data
            ++ ("\n\n**Image Summary:**\n".data ++ i.data ++ "\n                ".data) := by
        show (((("\nCombine the following text summary and image summary into a single, coherent summary:\n\n**Text Summary:**\n".data
            ++ t.data) ++ "\n\n**Image Summary:**\n".data) ++ i.data) ++ "\n                ".data) = _
        simp [List.append_assoc]
      rw [h2]
      exact List.infix_append _ _ _
    · have h3 : (combined_prompt t i).data
          = ("\nCombine the following text summary and image summary into a single, coherent summary:\n\n**Text Summary:**\n".data
            ++ t.data ++ "\n\n**Image Summary:**\n".data)
            ++ i.data ++ "\n                ".data := rfl
      rw [h3]
      exact List.infix_append _ _ _
  · subst hi
    have ht' := (pyTruthyStr_iff t).mpr ht
    simp [combine_summaries, ht', show pyTruthyStr "" = false from rfl]
  · subst ht
    have hi' := (pyTruthyStr_iff i).mpr hi
    simp [combine_summaries, hi', show pyTruthyStr "" = false from rfl]
  · subst ht
    subst hi
    simp [combine_summaries, show pyTruthyStr "" = false from rfl]

/-- C1, witness: the merge case at `textSummary = "A"`, `imageSummary = "B"`
with a merge model returning `"MERGED"`. -/
theorem c1_combining_stage_witness :
    combine_summaries (fun _ => Except.ok "MERGED") "A" "B"
        = (Except.ok "MERGED", [combined_prompt "A" "B"])
      ∧ ("A".data) <:+: (combined_prompt "A" "B").data
      ∧ ("B".data) <:+: (combined_prompt "A" "B").data := by
  have h := (c1_combining_stage (fun _ => Except.ok "MERGED") "A" "B").1
    (by decide) (by decide)
  exact ⟨h.1, h.2.1, h.2.2⟩

theorem countKill_append (a b : List Ev) :
    countKill (a ++ b) = countKill a + countKill b := by
  induction a with
  | nil => simp [countKill]
  | cons e es ih =>
    cases e with
    | killAttempt =>
      simp [countKill, ih]
      omega
    | completeCall p => simp [countKill, ih]
    | reportCall a b2 => simp [countKill, ih]

theorem countKill_map_complete (ps : List String) :
    countKill (ps.map Ev.completeCall) = 0 := by
  induction ps with
  | nil => rfl
  | cons p ps ih => simp [countKill, ih]

theorem countKill_try_body (env : PEnv) (tid : Int) :
    countKill (try_body env tid).1 = 0 := by
  unfold try_body
  repeat' split
  all_goals try simp [countKill_append, countKill_map_complete, countKill]
  all_goals split
  all_goals simp [countKill_append, countKill_map_complete, countKill]

/-- C6: every `process_ticket` run attempts `kill_session` exactly once —
on success, on a `None` ticket, and on an exception in any stage — and
`kill_session` with no session token returns `True` making no remote
call. -/
theorem c6_session_killed_once (env : PEnv) (tid : Int) :
    countKill (process_ticket env tid) = 1
    ∧ ∀ http : Except HttpErr Unit, kill_session none http = (true, 0) := by
  constructor
  · unfold process_ticket
    rw [countKill_append, countKill_try_body]
    rfl
  · intro http
    rfl

/-! ### Claim theorems: ticket client retries -/

/-- C3: evidence of the retry bug.  With every HTTP request failing,
`init_session`, `get_ticket` and `get_ticket_documents` each return their
graceful sentinel (`False`, `None`, `[]`) after exactly one attempt: the
internal `except RequestException` handlers swallow the failure, so the
`@retry(stop=stop_after_attempt(3))` wrapper — which only re-invokes on a
raised exception — never fires, and no backoff happens. -/
theorem c3_http_failure_single_attempt :
    init_session envAllFail none = (Except.ok (false, none), 1)
    ∧ get_ticket envAllFail (some "token") = (Except.ok (none, some "token"), 1)
    ∧ get_ticket_documents envAllFail (some "token") = (Except.ok ([], some "token"), 1) := by
  refine ⟨rfl, rfl, rfl⟩



theorem doc_loop_filename (env : GlpiEnv) (items : List LinkedItem)
    (ds : List DocRec) (h : doc_loop env items = Except.ok ds) :
    ∀ d ∈ ds, d.filename ≠ "" := by
  induction items generalizing ds with
  | nil =>
    unfold doc_loop at h
    cases h
    simp
  | cons it its ih =>
    unfold doc_loop at h
    split at h
    · split at h
      · exact absurd h (by simp)
      · rename_i dj hdoc
        split at h
        · exact absurd h (by simp)
        · rename_i rest hrest
          injection h with h2
          subst h2
          intro d hd
          by_cases hfn : pyTruthyOptStr dj.filename
          · rw [if_pos hfn] at hd
            rcases List.mem_cons.mp hd with hd | hd
            · subst hd
              cases hopt : dj.filename with
              | none => simp [hopt, pyTruthyOptStr] at hfn
              | some fn =>
                simp only [hopt, Option.getD_some]
                rw [hopt] at hfn
                simp only [pyTruthyOptStr] at hfn
                intro hc
                rw [hc] at hfn
                exact absurd hfn (by decide)
            · exact ih rest hrest d hd
          · rw [if_neg hfn] at hd
            exact ih rest hrest d hd
    · exact ih ds h

theorem rest_of_linked_error (env : GlpiEnv) (st0 : Option String) (e : HttpErr)
    (he : env.linkedHttp = Except.error e) :
    get_ticket_documents_rest env st0 = Except.ok ([], st0) := by
  unfold get_ticket_documents_rest
  rw [he]

theorem rest_of_linked_nil (env : GlpiEnv) (st0 : Option String)
    (he : env.linkedHttp = Except.ok []) :
    get_ticket_documents_rest env st0 = Except.ok ([], st0) := by
  unfold get_ticket_documents_rest
  rw [he]
  rfl

theorem rest_filename (env : GlpiEnv) (st0 : Option String)
    (ds : List DocRec) (st1 : Option String)
    (h : get_ticket_documents_rest env st0 = Except.ok (ds, st1)) :
    ∀ d ∈ ds, d.filename ≠ "" := by
  unfold get_ticket_documents_rest at h
  split at h
  · simp only [Except.ok.injEq, Prod.mk.injEq] at h
    obtain ⟨h1, _⟩ := h
    subst h1
    simp
  · rename_i items hitems
    split at h
    · simp only [Except.ok.injEq, Prod.mk.injEq] at h
      obtain ⟨h1, _⟩ := h
      subst h1
      simp
    · rename_i docs hdocs
      simp only [Except.ok.injEq, Prod.mk.injEq] at h
      obtain ⟨h1, _⟩ := h
      subst h1
      exact doc_loop_filename env items docs hdocs

theorem init_session_fst (env : GlpiEnv) (st : Option String) :
    (init_session env st).1
      = Except.ok
          (match env.initHttp with
           | Except.error _ => (false, st)
           | Except.ok tok => (pyTruthyOptStr tok, tok)) := by
  unfold init_session retry_call init_session_body
  cases env.initHttp <;> rfl

/-- C7: `get_ticket_documents` degrades to the empty list rather than an
exception when the linked-items request fails or the ticket has no linked
documents, and every returned document entry carries a present, nonempty
filename (items whose metadata lacks one are skipped). -/
theorem c7_documents_graceful (env : GlpiEnv) (st : Option String) :
    (∀ e, env.linkedHttp = Except.error e →
      ∃ st1, get_ticket_documents env st = (Except.ok ([], st1), 1))
    ∧ (env.linkedHttp = Except.ok [] →
      ∃ st1, get_ticket_documents env st = (Except.ok ([], st1), 1))
    ∧ (∀ ds st1, get_ticket_documents env st = (Except.ok (ds, st1), 1) →
      ∀ d ∈ ds, d.filename ≠ "") := by
  refine ⟨?_, ?_, ?_⟩
  · intro e he
    have hrest := fun st0 => rest_of_linked_error env st0 e he
    unfold get_ticket_documents retry_call get_ticket_documents_body
    by_cases hst : pyTruthyOptStr st
    · rw [if_pos hst, hrest st]
      exact ⟨st, rfl⟩
    · rw [if_neg hst]
      cases hi : env.initHttp with
      | error e0 => exact ⟨st, by simp [init_session_fst, hi]⟩
      | ok tok =>
        by_cases htok : pyTruthyOptStr tok
        · exact ⟨tok, by simp [init_session_fst, hi, htok, hrest tok]⟩
        · exact ⟨tok, by simp [init_session_fst, hi, htok]⟩
  · intro he
    have hrest := fun st0 => rest_of_linked_nil env st0 he
    unfold get_ticket_documents retry_call get_ticket_documents_body
    by_cases hst : pyTruthyOptStr st
    · rw [if_pos hst, hrest st]
      exact ⟨st, rfl⟩
    · rw [if_neg hst]
      cases hi : env.initHttp with
      | error e0 => exact ⟨st, by simp [init_session_fst, hi]⟩
      | ok tok =>
        by_cases htok : pyTruthyOptStr tok
        · exact ⟨tok, by simp [init_session_fst, hi, htok, hrest tok]⟩
        · exact ⟨tok, by simp [init_session_fst, hi, htok]⟩
  · intro ds st1 h d hd
    have hb : get_ticket_documents_body env st = Except.ok (ds, st1) := by
      unfold get_ticket_documents retry_call at h
      cases hbody : get_ticket_documents_body env st with
      | ok a =>
        obtain ⟨a1, a2⟩ := a
        rw [hbody] at h
        simp only [Prod.mk.injEq, Except.ok.injEq, and_true] at h
        obtain ⟨hA, hB⟩ := h
        rw [hA, hB]
      | error e =>
        rw [hbody] at h
        exact absurd h (by simp)
    unfold get_ticket_documents_body at hb
    by_cases hst : pyTruthyOptStr st
    · rw [if_pos hst] at hb
      exact rest_filename env st ds st1 hb d hd
    · rw [if_neg hst] at hb
      cases hi : env.initHttp with
      | error e0 =>
        cases ds with
        | nil => exact absurd hd (List.not_mem_nil d)
        | cons x xs => simp [init_session_fst, hi] at hb
      | ok tok =>
        simp only [init_session_fst, hi] at hb
        by_cases htok : pyTruthyOptStr tok
        · rw [if_pos htok] at hb
          exact rest_filename env tok ds st1 hb d hd
        · rw [if_neg htok] at hb
          cases ds with
          | nil => exact absurd hd (List.not_mem_nil d)
          | cons x xs => simp at hb

/-- C7, witness: an API whose linked-items request always fails yields the
empty document list after a single attempt, with no exception. -/
theorem c7_documents_graceful_witness :
    ∃ st1, get_ticket_documents envAllFail (some "token") = (Except.ok ([], st1), 1) :=
  (c7_documents_graceful envAllFail (some "token")).1
    (HttpErr.reqExc "connection refused") rfl

/-! ### Claim theorems: report builder -/

theorem structLoopGo_total (sections : List String) (fuel : Nat) :
    ∀ i : Nat, sections.length - i ≤ fuel →
      ∃ es, structLoopGo sections fuel i = some es := by
  induction fuel with
  | zero =>
    intro i hle
    unfold structLoopGo
    rw [if_neg (by omega)]
    exact ⟨[], rfl⟩
  | succ fuel ih =>
    intro i hle
    unfold structLoopGo
    by_cases h : i < sections.length
    · rw [if_pos h]
      cases hget : sections.get? i with
      | none =>
        rw [List.get?_eq_none] at hget
        omega
      | some rawTitle =>
        obtain ⟨rest, hrest⟩ := ih (i + 2) (by omega)
        rw [hrest]
        exact ⟨_, rfl⟩
    · rw [if_neg h]
      exact ⟨[], rfl⟩

theorem structLoop_total (sections : List String) (i : Nat) :
    ∃ es, structLoop sections i = some es :=
  structLoopGo_total sections sections.length i (by omega)

/-- C9: for every title, result text and sources list — the empty one
included — the element-list assembly of `generate_report` never hits an
out-of-range access, and the assembled report always contains the title
paragraph and the `Result:` heading. -/
theorem c9_report_elements_safe (title result : String) (sources : List SourceInfo) :
    ∃ es, report_elements title result sources = some es
      ∧ Element.para title "Heading1" ∈ es
      ∧ Element.para "Result:" "Heading2" ∈ es := by
  obtain ⟨structured, hstruct⟩ := structLoop_total (pySplitStr "**" result) 1
  unfold report_elements add_structured_result
  rw [hstruct]
  refine ⟨_, rfl, ?_, ?_⟩
  · simp
  · simp

/-- C4, counterexample: with an S3 service that always fails, the wrapped
`upload_to_s3` does raise a `ClientError` to its caller, but
`generate_report` catches it (`except ClientError` / `except Exception`)
and returns normally: no Uploading-stage exception is reported upward out
of the report-generation step, contradicting the claim. -/
theorem c4_upload_exception_swallowed :
    (upload_to_s3 envUpFail).1 = Except.error (ClientErr.clientError "AccessDenied")
    ∧ (generate_report envUpFail "Ticket Analysis - #1" "Result" [⟨some 1⟩]).1
        = Except.ok () := by
  exact ⟨rfl, rfl⟩

/-- C4, amended: `upload_to_s3` re-raises the upload failure to its caller
`generate_report`, but `generate_report` swallows every exception
(`ClientError` and any other), deletes the local file, and returns
normally — so no exception at all propagates out of the report-generation
step to the pipeline. -/
theorem c4_upload_raises_report_swallows (env : REnv) (title result : String)
    (sources : List SourceInfo) :
    (∀ e, env.s3 = Except.error e → (upload_to_s3 env).1 = Except.error e)
    ∧ (generate_report env title result sources).1 = Except.ok () := by
  constructor
  · intro e he
    unfold upload_to_s3 retry_call upload_to_s3_body
    rw [he]
  · obtain ⟨structured, hstruct⟩ := structLoop_total (pySplitStr "**" result) 1
    unfold generate_report report_elements add_structured_result
    rw [hstruct]
    cases env.build <;> rfl

/-- C4, witness for the amended theorem at a failing S3 environment. -/
theorem c4_upload_raises_report_swallows_witness :
    (upload_to_s3 envUpFail).1 = Except.error (ClientErr.clientError "AccessDenied")
    ∧ (generate_report envUpFail "T" "R" []).1 = Except.ok () :=
  ⟨(c4_upload_raises_report_swallows envUpFail "T" "R" []).1
      (ClientErr.clientError "AccessDenied") rfl,
    (c4_upload_raises_report_swallows envUpFail "T" "R" []).2⟩

/-! ### Claim theorems: webhook endpoint -/

/-- C8: the first record with `event` in `{add, update}` and
`itemtype == "Ticket"` (when its `items_id` converts to an integer)
schedules exactly one pipeline run for that id — later matching records in
the batch are ignored — and a batch with no matching record yields the
`no relevant event` message and schedules nothing. -/
theorem c8_first_match_scheduled (data : List WRec) :
    (∀ r n, data.find? rec_matches = some r → pyInt r.items_id = some n →
      glpi_webhook data
        = (WebhookResp.message ("Ticket processing initiated for ID: " ++ toString n),
          [n]))
    ∧ (data.find? rec_matches = none →
      glpi_webhook data
        = (WebhookResp.message "Webhook received, but no relevant event found.", [])) := by
  induction data with
  | nil =>
    constructor
    · intro r n hf
      simp at hf
    · intro _
      rfl
  | cons a rest ih =>
    constructor
    · intro r n hf hn
      by_cases ha : rec_matches a
      · rw [List.find?_cons_of_pos _ ha] at hf
        injection hf with hf
        subst hf
        simp [glpi_webhook, webhook_loop, ha, hn]
      · rw [List.find?_cons_of_neg _ ha] at hf
        have := ih.1 r n hf hn
        simpa [glpi_webhook, webhook_loop, ha] using this
    · intro hf
      by_cases ha : rec_matches a
      · rw [List.find?_cons_of_pos _ ha] at hf
        simp at hf
      · rw [List.find?_cons_of_neg _ ha] at hf
        have := ih.2 hf
        simpa [glpi_webhook, webhook_loop, ha] using this

/-- C8, witness: a batch with two matching records schedules only the first
(ticket 42), and a batch with no matching record schedules nothing. -/
theorem c8_first_match_scheduled_witness :
    glpi_webhook [wrecAdd42, wrecUpd7]
        = (WebhookResp.message ("Ticket processing initiated for ID: " ++ toString (42 : Int)),
          [42])
    ∧ glpi_webhook [wrecDel]
        = (WebhookResp.message "Webhook received, but no relevant event found.", []) :=
  ⟨(c8_first_match_scheduled [wrecAdd42, wrecUpd7]).1 wrecAdd42 42 (by decide) (by decide),
    (c8_first_match_scheduled [wrecDel]).2 (by decide)⟩

/-- C10: when the first matching record carries an `items_id` that does not
convert to an integer (missing, `None`, or a non-numeric string), `int()`
raises, the handler's `except` returns a payload under the `error` key, and
no pipeline run is scheduled. -/
theorem c10_bad_items_id (data : List WRec) (r : WRec)
    (hf : data.find? rec_matches = some r) (hn : pyInt r.items_id = none) :
    ∃ e, glpi_webhook data = (WebhookResp.error e, []) := by
  induction data with
  | nil => simp at hf
  | cons a rest ih =>
    by_cases ha : rec_matches a
    · rw [List.find?_cons_of_pos _ ha] at hf
      injection hf with hf
      subst hf
      exact ⟨"invalid literal for int()", by simp [glpi_webhook, webhook_loop, ha, hn]⟩
    · rw [List.find?_cons_of_neg _ ha] at hf
      obtain ⟨e, he⟩ := ih hf
      exact ⟨e, by simpa [glpi_webhook, webhook_loop, ha] using he⟩

/-- C10, witness: a matching record whose `items_id` key is absent yields an
error payload and schedules nothing. -/
theorem c10_bad_items_id_witness :
    ∃ e, glpi_webhook [wrecNoId] = (WebhookResp.error e, []) :=
  c10_bad_items_id [wrecNoId] wrecNoId (by decide) (by decide)

/-- C6, witness: a concrete successful run kills the session exactly once,
and a token-less `kill_session` returns `True` with zero requests. -/
theorem c6_session_killed_once_witness :
    countKill (process_ticket envPipe 1) = 1
    ∧ kill_session none (Except.ok ()) = (true, 0) :=
  ⟨(c6_session_killed_once envPipe 1).1,
    (c6_session_killed_once envPipe 1).2 (Except.ok ())⟩

/-- C9, witness: the assembly at a concrete title, a bulleted result and the
empty sources list. -/
theorem c9_report_elements_safe_witness :
    ∃ es, report_elements "Ticket Analysis - #1" "**Solution:** fix * reboot" []
        = some es
      ∧ Element.para "Ticket Analysis - #1" "Heading1" ∈ es
      ∧ Element.para "Result:" "Heading2" ∈ es :=
  c9_report_elements_safe "Ticket Analysis - #1" "**Solution:** fix * reboot" []
